import Mathlib

/-!
Verification of the Zhele USB device control engine
(`src/Zhele/include/common/ioreg.h`, `Zhele::Usb::DeviceBase`).

The interrupt-context code is embedded as a pure state machine: each source
routine (`Handler`, `CommonHandler`, `Reset`, `FillDescriptor`) is translated
into a Lean function that emits the list of observable effects (register
writes, endpoint-status changes, staged responses) in source order, and the
runtime-mutable state (`TempAddressStorage`, `DADDR`, endpoint/ISTR flags) is
obtained by folding an effect interpreter over that list.  This keeps the
effect ordering and the register contents consistent with a single
translation of the source.
-/

namespace ZheleUsb

/-- Endpoint hardware status (Disabled/Stall/NAK/Valid), spec section 3. -/
inductive EndpointStatus where
  | disabled
  | stall
  | nak
  | valid
deriving DecidableEq

/-- Transfer direction, `EndpointDirection::In` / `EndpointDirection::Out`. -/
inductive EndpointDirection where
  | In
  | Out
deriving DecidableEq

/-- SetupPacket: the 8-byte control-request header, read from the endpoint-0
receive buffer.  Modelled from the spec: the struct lives in a header that is
not under `src/`; the spec gives the wire format
`requestType(1), request(1), value(2 LE), index(2 LE), length(2 LE)`.
`Value` and `Length` are 16-bit fields. -/
structure SetupPacket where
  RequestType : Nat
  Request : Nat
  Value : Nat
  Index : Nat
  Length : Nat
deriving DecidableEq

/-- Modelled from the spec: `USB_CNTR_CTRM` from the vendor CMSIS header
(external collaborator): transfer-complete interrupt enable. -/
def USB_CNTR_CTRM : Nat := 0x8000

/-- Modelled from the spec: `USB_CNTR_RESETM`: bus-reset interrupt enable. -/
def USB_CNTR_RESETM : Nat := 0x0400

/-- Modelled from the spec: `USB_ISTR_RESET` flag bit. -/
def USB_ISTR_RESET : Nat := 0x0400

/-- Modelled from the spec: `USB_ISTR_CTR` flag bit. -/
def USB_ISTR_CTR : Nat := 0x8000

/-- Modelled from the spec: `USB_DADDR_EF`: device enable flag of DADDR. -/
def USB_DADDR_EF : Nat := 0x80

/-- Modelled from the spec: `USB_DADDR_ADD`: 7-bit address field mask. -/
def USB_DADDR_ADD : Nat := 0x7F

/-- Modelled from the spec: `StandartRequestCode::GetStatus` (enum in a header
not under `src/`; USB standard request code). -/
def GetStatusCode : Nat := 0

/-- Modelled from the spec: `StandartRequestCode::SetAddress`. -/
def SetAddressCode : Nat := 5

/-- Modelled from the spec: `StandartRequestCode::GetDescriptor`. -/
def GetDescriptorCode : Nat := 6

/-- Modelled from the spec: `StandartRequestCode::SetConfiguration`. -/
def SetConfigurationCode : Nat := 9

/-- Modelled from the spec: `GetDescriptorParameter::DeviceDescriptor`:
the 16-bit wValue with descriptor type Device (1) in the high byte and
descriptor index 0 in the low byte. -/
def DeviceDescriptorParam : Nat := 0x100

/-- Modelled from the spec: `GetDescriptorParameter::ConfigurationDescriptor`
(type Configuration (2), index 0). -/
def ConfigurationDescriptorParam : Nat := 0x200

/-- Modelled from the spec: `GetDescriptorParameter::HidReportDescriptor`
(type HID report (0x22), index 0). -/
def HidReportDescriptorParam : Nat := 0x2200

/-- Modelled from the spec: `DescriptorType::Device` tag value. -/
def DeviceDescriptorType : Nat := 1

/-- DeviceDescriptor: the packed 18-byte record of src lines 187-205.
Fields keep the source names (`Type` and `Class` are renamed `DescType` and
`DevClass` because they collide with Lean keywords/universes). -/
structure DeviceDescriptor where
  Length : Nat := 18
  DescType : Nat := DeviceDescriptorType
  UsbVersion : Nat
  DevClass : Nat
  SubClass : Nat
  Protocol : Nat
  MaxPacketSize : Nat
  VendorId : Nat
  ProductId : Nat
  DeviceReleaseNumber : Nat
  ManufacturerStringIndex : Nat := 0
  ProductStringIndex : Nat := 0
  SerialNumberStringIndex : Nat := 0
  ConfigurationsCount : Nat
deriving DecidableEq

/-- Byte-exact serialization of the packed `DeviceDescriptor` struct
(`#pragma pack(push, 1)`, no padding): one byte per `uint8_t` field, two
little-endian bytes per `uint16_t` field, 18 bytes total. -/
def bytesOfDeviceDescriptor (d : DeviceDescriptor) : List Nat :=
  [d.Length % 256, d.DescType % 256,
   d.UsbVersion % 256, d.UsbVersion / 256 % 256,
   d.DevClass % 256, d.SubClass % 256, d.Protocol % 256, d.MaxPacketSize % 256,
   d.VendorId % 256, d.VendorId / 256 % 256,
   d.ProductId % 256, d.ProductId / 256 % 256,
   d.DeviceReleaseNumber % 256, d.DeviceReleaseNumber / 256 % 256,
   d.ManufacturerStringIndex % 256, d.ProductStringIndex % 256,
   d.SerialNumberStringIndex % 256,
   d.ConfigurationsCount % 256]

/-- One statically declared configuration.  Modelled from the spec: the
configuration classes live in headers not under `src/`; the core only uses
their composed configuration-descriptor byte stream (`FillDescriptor`, a
pure deterministic composer per spec section 4.4) and the opaque HID report
blob (`HidReport::Data`). -/
structure ConfigurationDef where
  descriptorBytes : List Nat
  hidReportData : List Nat
deriving DecidableEq

/-- The compile-time template arguments of `DeviceBase`.  The template pack
`_Configurations` is non-empty whenever `GetType<0, Configurations>` is used,
so it is embedded as a first configuration plus the remaining list. -/
structure DeviceConfig where
  usbVersion : Nat
  devClass : Nat
  subClass : Nat
  protocol : Nat
  maxPacketSize : Nat
  vendorId : Nat
  productId : Nat
  deviceReleaseNumber : Nat
  firstConfiguration : ConfigurationDef
  otherConfigurations : List ConfigurationDef
deriving DecidableEq

/-- `DeviceBase::FillDescriptor` (src lines 268-281): builds the device
descriptor from the template arguments; the string indexes, length and type
keep their aggregate defaults; `ConfigurationsCount = sizeof...(_Configurations)`. -/
def FillDescriptor (cfg : DeviceConfig) : DeviceDescriptor :=
  { UsbVersion := cfg.usbVersion
    DevClass := cfg.devClass
    SubClass := cfg.subClass
    Protocol := cfg.protocol
    MaxPacketSize := cfg.maxPacketSize
    VendorId := cfg.vendorId
    ProductId := cfg.productId
    DeviceReleaseNumber := cfg.deviceReleaseNumber
    ConfigurationsCount := 1 + cfg.otherConfigurations.length }

/-- `uint8_t temp[64]` of src line 342: the scratch buffer capacity used to
compose the configuration descriptor. -/
def configDescriptorScratchSize : Nat := 64

/-- Observable effects of the interrupt-context code, in source order. -/
inductive Effect where
  | clearCtrRx
  | clearCtrTx
  | storeTempAddr (v : Nat)
  | sendData (bytes : List Nat)
  | setTxStatus (st : EndpointStatus)
  | setRxStatus (st : EndpointStatus)
  | writeDaddr (v : Nat)
  | resetEp0
  | resetConfig (i : Nat)
  | writeCntr (v : Nat)
  | writeIstr (v : Nat)
  | writeBtable (v : Nat)
  | togglePin
  | dispatchEp (ep : Nat) (dir : EndpointDirection)
  | clearPendingIrq
deriving DecidableEq

/-- The runtime-mutable state seen by the core: the ISTR flags (reset,
transfer-complete, endpoint id, direction), the endpoint-0 register flags
(CTR_RX, SETUP, CTR_TX), the parsed receive buffer, the static member
`TempAddressStorage`, the DADDR register, and the endpoint-0 statuses. -/
structure UsbState where
  istrReset : Bool
  istrCtr : Bool
  istrEpId : Nat
  istrDir : Bool
  epCtrRx : Bool
  epSetup : Bool
  epCtrTx : Bool
  rxSetup : SetupPacket
  TempAddressStorage : Nat
  daddr : Nat
  txStatus : EndpointStatus
  rxStatus : EndpointStatus
deriving DecidableEq

/-- Effect interpreter: the state change each effect performs.  Writing ISTR
updates the reset/transfer-complete flags from the written bits (the source
re-reads the register after `Reset()` zeroes it). -/
def applyEffect (s : UsbState) (e : Effect) : UsbState :=
  match e with
  | .clearCtrRx => { s with epCtrRx := false }
  | .clearCtrTx => { s with epCtrTx := false }
  | .storeTempAddr v => { s with TempAddressStorage := v }
  | .setTxStatus st => { s with txStatus := st }
  | .setRxStatus st => { s with rxStatus := st }
  | .writeDaddr v => { s with daddr := v }
  | .writeIstr v =>
      { s with istrReset := (v &&& USB_ISTR_RESET) != 0,
               istrCtr := (v &&& USB_ISTR_CTR) != 0 }
  | _ => s

/-- Runs a list of effects over a state, first effect first. -/
def run (s : UsbState) (es : List Effect) : UsbState :=
  es.foldl applyEffect s

/-- The `GetDescriptor` inner switch (src lines 334-355): the `switch` is on
the full 16-bit `setup->Value`; each supported branch stages a response
truncated to `min(setup->Length, size)`, the default branch stalls the
transmit endpoint. -/
def getDescriptorEffects (cfg : DeviceConfig) (sp : SetupPacket) : List Effect :=
  if sp.Value = DeviceDescriptorParam then
    [Effect.sendData ((bytesOfDeviceDescriptor (FillDescriptor cfg)).take
        (if sp.Length < 18 then sp.Length else 18))]
  else if sp.Value = ConfigurationDescriptorParam then
    [Effect.sendData (cfg.firstConfiguration.descriptorBytes.take
        (if sp.Length < cfg.firstConfiguration.descriptorBytes.length then sp.Length
         else cfg.firstConfiguration.descriptorBytes.length))]
  else if sp.Value = HidReportDescriptorParam then
    [Effect.sendData (cfg.firstConfiguration.hidReportData.take
        (if sp.Length < cfg.firstConfiguration.hidReportData.length then sp.Length
         else cfg.firstConfiguration.hidReportData.length))]
  else
    [Effect.setTxStatus .stall]

/-- The outer `switch (setup->Request)` of src lines 321-364.  `GetStatus`
stages a fixed 2-byte zero status; `SetAddress` stores `setup->Value` into
the `uint8_t` `TempAddressStorage` (truncation mod 256) and stages a
zero-length acknowledgment; `SetConfiguration` stages a zero-length
acknowledgment and, because its case block has no `break` (src lines
358-360), falls through into the `default` branch and also stalls the
transmit endpoint; every other request code stalls. -/
def setupRequestEffects (cfg : DeviceConfig) (sp : SetupPacket) : List Effect :=
  if sp.Request = GetStatusCode then
    [Effect.sendData [0, 0]]
  else if sp.Request = SetAddressCode then
    [Effect.storeTempAddr (sp.Value % 256), Effect.sendData []]
  else if sp.Request = GetDescriptorCode then
    getDescriptorEffects cfg sp
  else if sp.Request = SetConfigurationCode then
    [Effect.sendData [], Effect.setTxStatus .stall]
  else
    [Effect.setTxStatus .stall]

/-- Receive-complete half of `DeviceBase::Handler` (src lines 315-367): if
CTR_RX is flagged, clear it, dispatch the SETUP packet when the SETUP flag is
set, and always re-arm the receive direction to Valid. -/
def HandlerRxEffects (cfg : DeviceConfig) (s : UsbState) : List Effect :=
  if s.epCtrRx then
    [Effect.clearCtrRx]
      ++ (if s.epSetup then setupRequestEffects cfg s.rxSetup else [])
      ++ [Effect.setRxStatus .valid]
  else []

/-- Transmit-complete half of `DeviceBase::Handler` (src lines 368-377): if
CTR_TX is flagged, clear it, commit the pending address when it is non-zero
(`DADDR = USB_DADDR_EF | (TempAddressStorage & USB_DADDR_ADD)`, then
`TempAddressStorage = 0`), and re-arm the receive direction to Valid. -/
def HandlerTxEffects (s : UsbState) : List Effect :=
  if s.epCtrTx then
    [Effect.clearCtrTx]
      ++ (if s.TempAddressStorage ≠ 0 then
            [Effect.writeDaddr (USB_DADDR_EF ||| (s.TempAddressStorage &&& USB_DADDR_ADD)),
             Effect.storeTempAddr 0]
          else [])
      ++ [Effect.setRxStatus .valid]
  else []

/-- `DeviceBase::Handler` (src lines 313-378): the receive-complete block runs
first; the transmit-complete check reads the endpoint register (and
`TempAddressStorage`) after the receive block has run. -/
def Handler (cfg : DeviceConfig) (s : UsbState) : UsbState × List Effect :=
  let e1 := HandlerRxEffects cfg s
  let s1 := run s e1
  let e2 := HandlerTxEffects s1
  (run s1 e2, e1 ++ e2)

/-- `DeviceBase::Reset` (src lines 300-311): rewrite CNTR with the baseline
interrupt mask, zero ISTR, reset endpoint 0, reset every declared
configuration (index `i` names the `i`-th configuration of the pack), zero
BTABLE, and re-activate the device with `DADDR = USB_DADDR_EF` (enable flag
set, address field 0). -/
def Reset (cfg : DeviceConfig) : List Effect :=
  [Effect.writeCntr (USB_CNTR_CTRM ||| USB_CNTR_RESETM),
   Effect.writeIstr 0,
   Effect.resetEp0]
    ++ (List.range (1 + cfg.otherConfigurations.length)).map Effect.resetConfig
    ++ [Effect.writeBtable 0, Effect.writeDaddr USB_DADDR_EF]

/-- `DeviceBase::CommonHandler` (src lines 283-298): run `Reset()` when the
reset flag is up, then (re-reading ISTR) handle a transfer-complete: toggle
the debug pin and hand the reported endpoint/direction to the dispatch table.
Modelled from the spec: the dispatch table (`EndpointHandlers`, in a header
not under `src/`) special-cases endpoint 0 to this device's `Handler`; other
endpoints become an opaque `dispatchEp` effect.  The pending interrupt is
always cleared before returning. -/
def CommonHandler (cfg : DeviceConfig) (s : UsbState) : UsbState × List Effect :=
  let e1 := if s.istrReset then Reset cfg else []
  let s1 := run s e1
  let r :=
    if s1.istrCtr then
      let inner :=
        if s1.istrEpId = 0 then Handler cfg s1
        else (s1, [Effect.dispatchEp s1.istrEpId
                     (if s1.istrDir then EndpointDirection.In else EndpointDirection.Out)])
      (inner.1, Effect.togglePin :: inner.2)
    else (s1, ([] : List Effect))
  (r.1, e1 ++ r.2 ++ [Effect.clearPendingIrq])

/-- Environment events on endpoint 0: a receive-complete carrying a SETUP
packet, a receive-complete without the SETUP flag, and a transmit-complete
(the status-stage completion).  Each event flags the endpoint register
accordingly and invokes `Handler`. -/
inductive Ep0Event where
  | recvSetup (sp : SetupPacket)
  | recvData
  | txComplete
deriving DecidableEq

/-- One `Handler` invocation for an endpoint-0 event: state and effects. -/
def stepE (cfg : DeviceConfig) (s : UsbState) (e : Ep0Event) : UsbState × List Effect :=
  match e with
  | .recvSetup sp =>
      Handler cfg { s with epCtrRx := true, epSetup := true, epCtrTx := false, rxSetup := sp }
  | .recvData =>
      Handler cfg { s with epCtrRx := true, epSetup := false, epCtrTx := false }
  | .txComplete =>
      Handler cfg { s with epCtrRx := false, epCtrTx := true }

/-- State after one endpoint-0 event. -/
def step (cfg : DeviceConfig) (s : UsbState) (e : Ep0Event) : UsbState :=
  (stepE cfg s e).1

/-- State after a sequence of endpoint-0 events. -/
def runEvents (cfg : DeviceConfig) (s : UsbState) (evs : List Ep0Event) : UsbState :=
  evs.foldl (step cfg) s

/-- A SETUP packet carrying `SetAddress(addr)`. -/
def setAddressPacket (addr : Nat) : SetupPacket :=
  { RequestType := 0, Request := SetAddressCode, Value := addr, Index := 0, Length := 0 }

/-- A concrete device: the scenario of spec section 8
(`VendorId=0x1234, ProductId=0x5678, UsbVersion=0x0200`, one configuration). -/
def exampleConfig : DeviceConfig :=
  { usbVersion := 0x0200
    devClass := 0
    subClass := 0
    protocol := 0
    maxPacketSize := 64
    vendorId := 0x1234
    productId := 0x5678
    deviceReleaseNumber := 0x0100
    firstConfiguration := { descriptorBytes := [9, 2, 25, 0, 1, 1, 0, 128, 50],
                            hidReportData := [5, 1, 9, 6] }
    otherConfigurations := [] }

/-- The state right after `Reset()`: no flags pending, `TempAddressStorage`
at its static initializer 0, DADDR at the enable-flag-only value. -/
def initialState : UsbState :=
  { istrReset := false
    istrCtr := false
    istrEpId := 0
    istrDir := false
    epCtrRx := false
    epSetup := false
    epCtrTx := false
    rxSetup := { RequestType := 0, Request := 0, Value := 0, Index := 0, Length := 0 }
    TempAddressStorage := 0
    daddr := USB_DADDR_EF
    txStatus := EndpointStatus.nak
    rxStatus := EndpointStatus.valid }

/-! ### Helper lemmas about the effect interpreter -/

lemma run_append (s : UsbState) (a b : List Effect) :
    run s (a ++ b) = run (run s a) b := by
  simp [run, List.foldl_append]

lemma run_nil (s : UsbState) : run s [] = s := rfl

lemma applyEffect_epCtrTx (s : UsbState) (e : Effect) (h : s.epCtrTx = false) :
    (applyEffect s e).epCtrTx = false := by
  cases e <;> simp [applyEffect, h]

lemma run_epCtrTx (s : UsbState) (es : List Effect) (h : s.epCtrTx = false) :
    (run s es).epCtrTx = false := by
  induction es generalizing s with
  | nil => exact h
  | cons e rest ih =>
      have : run s (e :: rest) = run (applyEffect s e) rest := rfl
      rw [this]
      exact ih _ (applyEffect_epCtrTx s e h)

lemma applyEffect_temp (s : UsbState) (e : Effect) (h : ∀ v, e ≠ Effect.storeTempAddr v) :
    (applyEffect s e).TempAddressStorage = s.TempAddressStorage := by
  cases e <;> simp [applyEffect]
  case storeTempAddr v => exact absurd rfl (h v)

lemma run_temp (s : UsbState) (es : List Effect) (h : ∀ v, Effect.storeTempAddr v ∉ es) :
    (run s es).TempAddressStorage = s.TempAddressStorage := by
  induction es generalizing s with
  | nil => rfl
  | cons e rest ih =>
      have hstep : run s (e :: rest) = run (applyEffect s e) rest := rfl
      have he : ∀ v, e ≠ Effect.storeTempAddr v := by
        intro v hv
        exact h v (by rw [hv]; exact List.mem_cons_self _ _)
      have hrest : ∀ v, Effect.storeTempAddr v ∉ rest := by
        intro v hv
        exact h v (List.mem_cons_of_mem _ hv)
      rw [hstep, ih _ hrest, applyEffect_temp s e he]

lemma applyEffect_daddr (s : UsbState) (e : Effect) (h : ∀ v, e ≠ Effect.writeDaddr v) :
    (applyEffect s e).daddr = s.daddr := by
  cases e <;> simp [applyEffect]
  case writeDaddr v => exact absurd rfl (h v)

lemma run_daddr (s : UsbState) (es : List Effect) (h : ∀ v, Effect.writeDaddr v ∉ es) :
    (run s es).daddr = s.daddr := by
  induction es generalizing s with
  | nil => rfl
  | cons e rest ih =>
      have hstep : run s (e :: rest) = run (applyEffect s e) rest := rfl
      have he : ∀ v, e ≠ Effect.writeDaddr v := by
        intro v hv
        exact h v (by rw [hv]; exact List.mem_cons_self _ _)
      have hrest : ∀ v, Effect.writeDaddr v ∉ rest := by
        intro v hv
        exact h v (List.mem_cons_of_mem _ hv)
      rw [hstep, ih _ hrest, applyEffect_daddr s e he]

/-! ### Which effects each routine can emit -/

lemma storeTempAddr_not_mem_getDescriptorEffects (cfg : DeviceConfig) (sp : SetupPacket) :
    ∀ v, Effect.storeTempAddr v ∉ getDescriptorEffects cfg sp := by
  intro v
  unfold getDescriptorEffects
  split_ifs <;> simp

lemma writeDaddr_not_mem_getDescriptorEffects (cfg : DeviceConfig) (sp : SetupPacket) :
    ∀ v, Effect.writeDaddr v ∉ getDescriptorEffects cfg sp := by
  intro v
  unfold getDescriptorEffects
  split_ifs <;> simp

lemma storeTempAddr_not_mem_setupRequestEffects (cfg : DeviceConfig) (sp : SetupPacket)
    (h : sp.Request ≠ SetAddressCode) :
    ∀ v, Effect.storeTempAddr v ∉ setupRequestEffects cfg sp := by
  intro v
  unfold setupRequestEffects
  split_ifs <;> simp_all [storeTempAddr_not_mem_getDescriptorEffects]

lemma writeDaddr_not_mem_setupRequestEffects (cfg : DeviceConfig) (sp : SetupPacket) :
    ∀ v, Effect.writeDaddr v ∉ setupRequestEffects cfg sp := by
  intro v
  unfold setupRequestEffects
  split_ifs <;> simp_all [writeDaddr_not_mem_getDescriptorEffects]

lemma writeDaddr_not_mem_HandlerRxEffects (cfg : DeviceConfig) (s : UsbState) :
    ∀ v, Effect.writeDaddr v ∉ HandlerRxEffects cfg s := by
  intro v
  unfold HandlerRxEffects
  split_ifs <;> simp_all [writeDaddr_not_mem_setupRequestEffects]

lemma sendData_not_mem_HandlerTxEffects (s : UsbState) :
    ∀ b, Effect.sendData b ∉ HandlerTxEffects s := by
  intro b
  unfold HandlerTxEffects
  split_ifs <;> simp

/-! ### Computation lemmas for one `Handler` invocation per event -/

lemma stepE_recvSetup (cfg : DeviceConfig) (s : UsbState) (sp : SetupPacket) :
    stepE cfg s (Ep0Event.recvSetup sp) =
      (run { s with epCtrRx := true, epSetup := true, epCtrTx := false, rxSetup := sp }
        (Effect.clearCtrRx :: (setupRequestEffects cfg sp ++ [Effect.setRxStatus .valid])),
       Effect.clearCtrRx :: (setupRequestEffects cfg sp ++ [Effect.setRxStatus .valid])) := by
  have hrx : HandlerRxEffects cfg
      { s with epCtrRx := true, epSetup := true, epCtrTx := false, rxSetup := sp } =
      Effect.clearCtrRx :: (setupRequestEffects cfg sp ++ [Effect.setRxStatus .valid]) := by
    simp [HandlerRxEffects]
  have hc : (run { s with epCtrRx := true, epSetup := true, epCtrTx := false, rxSetup := sp }
      (Effect.clearCtrRx :: (setupRequestEffects cfg sp ++ [Effect.setRxStatus .valid]))).epCtrTx
      = false := run_epCtrTx _ _ rfl
  have htx : HandlerTxEffects
      (run { s with epCtrRx := true, epSetup := true, epCtrTx := false, rxSetup := sp }
        (Effect.clearCtrRx :: (setupRequestEffects cfg sp ++ [Effect.setRxStatus .valid]))) = [] := by
    simp [HandlerTxEffects, hc]
  simp [stepE, Handler, hrx, htx, run_nil]

lemma stepE_recvData (cfg : DeviceConfig) (s : UsbState) :
    stepE cfg s Ep0Event.recvData =
      (run { s with epCtrRx := true, epSetup := false, epCtrTx := false }
        [Effect.clearCtrRx, Effect.setRxStatus .valid],
       [Effect.clearCtrRx, Effect.setRxStatus .valid]) := by
  have hrx : HandlerRxEffects cfg { s with epCtrRx := true, epSetup := false, epCtrTx := false } =
      [Effect.clearCtrRx, Effect.setRxStatus .valid] := by
    simp [HandlerRxEffects]
  have hc : (run { s with epCtrRx := true, epSetup := false, epCtrTx := false }
      [Effect.clearCtrRx, Effect.setRxStatus .valid]).epCtrTx = false :=
    run_epCtrTx _ _ rfl
  have htx : HandlerTxEffects
      (run { s with epCtrRx := true, epSetup := false, epCtrTx := false }
        [Effect.clearCtrRx, Effect.setRxStatus .valid]) = [] := by
    simp [HandlerTxEffects, hc]
  simp [stepE, Handler, hrx, htx, run_nil]

lemma stepE_txComplete (cfg : DeviceConfig) (s : UsbState) :
    stepE cfg s Ep0Event.txComplete =
      (run { s with epCtrRx := false, epCtrTx := true }
        (HandlerTxEffects { s with epCtrRx := false, epCtrTx := true }),
       HandlerTxEffects { s with epCtrRx := false, epCtrTx := true }) := by
  have hrx : HandlerRxEffects cfg { s with epCtrRx := false, epCtrTx := true } = [] := by
    simp [HandlerRxEffects]
  simp [stepE, Handler, hrx, run_nil]

lemma step_recvSetup_daddr (cfg : DeviceConfig) (s : UsbState) (sp : SetupPacket) :
    (step cfg s (Ep0Event.recvSetup sp)).daddr = s.daddr := by
  show (stepE cfg s (Ep0Event.recvSetup sp)).1.daddr = s.daddr
  rw [stepE_recvSetup]
  refine (run_daddr _ _ ?_).trans rfl
  intro v hm
  rcases List.mem_cons.mp hm with hm | hm
  · simp at hm
  rcases List.mem_append.mp hm with hm | hm
  · exact writeDaddr_not_mem_setupRequestEffects cfg sp v hm
  · simp at hm

lemma step_recvSetup_temp (cfg : DeviceConfig) (s : UsbState) (sp : SetupPacket) :
    (step cfg s (Ep0Event.recvSetup sp)).TempAddressStorage =
      if sp.Request = SetAddressCode then sp.Value % 256 else s.TempAddressStorage := by
  show (stepE cfg s (Ep0Event.recvSetup sp)).1.TempAddressStorage = _
  rw [stepE_recvSetup]
  by_cases h : sp.Request = SetAddressCode
  · have hs : setupRequestEffects cfg sp =
        [Effect.storeTempAddr (sp.Value % 256), Effect.sendData []] := by
      unfold setupRequestEffects
      rw [if_neg (by rw [h]; decide), if_pos h]
    rw [if_pos h, hs]
    simp [run, applyEffect]
  · rw [if_neg h]
    refine (run_temp _ _ ?_).trans rfl
    intro v hm
    rcases List.mem_cons.mp hm with hm | hm
    · simp at hm
    rcases List.mem_append.mp hm with hm | hm
    · exact storeTempAddr_not_mem_setupRequestEffects cfg sp h v hm
    · simp at hm

lemma step_recvData_temp (cfg : DeviceConfig) (s : UsbState) :
    (step cfg s Ep0Event.recvData).TempAddressStorage = s.TempAddressStorage := by
  show (stepE cfg s Ep0Event.recvData).1.TempAddressStorage = _
  rw [stepE_recvData]
  simp [run, applyEffect]

lemma step_tx_temp (cfg : DeviceConfig) (s : UsbState) :
    (step cfg s Ep0Event.txComplete).TempAddressStorage = 0 := by
  show (stepE cfg s Ep0Event.txComplete).1.TempAddressStorage = 0
  rw [stepE_txComplete]
  by_cases h : s.TempAddressStorage = 0
  · simp [HandlerTxEffects, h, run, applyEffect]
  · simp [HandlerTxEffects, h, run, applyEffect]

lemma step_tx_daddr_zero (cfg : DeviceConfig) (s : UsbState) (h : s.TempAddressStorage = 0) :
    (step cfg s Ep0Event.txComplete).daddr = s.daddr := by
  show (stepE cfg s Ep0Event.txComplete).1.daddr = s.daddr
  rw [stepE_txComplete]
  simp [HandlerTxEffects, h, run, applyEffect]

lemma step_tx_daddr_commit (cfg : DeviceConfig) (s : UsbState) (h : s.TempAddressStorage ≠ 0) :
    (step cfg s Ep0Event.txComplete).daddr =
      USB_DADDR_EF ||| (s.TempAddressStorage &&& USB_DADDR_ADD) := by
  show (stepE cfg s Ep0Event.txComplete).1.daddr = _
  rw [stepE_txComplete]
  simp [HandlerTxEffects, h, run, applyEffect]

lemma runEvents_append_one (cfg : DeviceConfig) (s : UsbState) (l : List Ep0Event) (e : Ep0Event) :
    runEvents cfg s (l ++ [e]) = step cfg (runEvents cfg s l) e := by
  simp [runEvents, List.foldl_append]

/-- Bounded bitwise fact about the 7-bit DADDR address field: for addresses
below 128 the commit value `EF ||| (a &&& ADD)` is `128 + a` and its address
field is exactly `a`. -/
lemma daddr_commit_small :
    ∀ a : Nat, a < 128 →
      (128 ||| (a &&& 127) = 128 + a ∧ (128 ||| (a &&& 127)) &&& 127 = a) := by
  decide

lemma ite_lt_eq_min (a b : Nat) : (if a < b then a else b) = min a b := by
  split_ifs with h
  · omega
  · omega

lemma setupRequestEffects_setAddress (cfg : DeviceConfig) (sp : SetupPacket)
    (h : sp.Request = SetAddressCode) :
    setupRequestEffects cfg sp = [Effect.storeTempAddr (sp.Value % 256), Effect.sendData []] := by
  unfold setupRequestEffects
  rw [if_neg (by rw [h]; decide), if_pos h]

lemma setupRequestEffects_getDescriptor (cfg : DeviceConfig) (sp : SetupPacket)
    (h : sp.Request = GetDescriptorCode) :
    setupRequestEffects cfg sp = getDescriptorEffects cfg sp := by
  unfold setupRequestEffects
  rw [if_neg (by rw [h]; decide), if_neg (by rw [h]; decide), if_pos h]

lemma getDescriptorEffects_device (cfg : DeviceConfig) (sp : SetupPacket)
    (h : sp.Value = DeviceDescriptorParam) :
    getDescriptorEffects cfg sp =
      [Effect.sendData ((bytesOfDeviceDescriptor (FillDescriptor cfg)).take
        (min sp.Length 18))] := by
  unfold getDescriptorEffects
  rw [if_pos h, ite_lt_eq_min]

lemma getDescriptorEffects_config (cfg : DeviceConfig) (sp : SetupPacket)
    (h : sp.Value = ConfigurationDescriptorParam) :
    getDescriptorEffects cfg sp =
      [Effect.sendData (cfg.firstConfiguration.descriptorBytes.take
        (min sp.Length cfg.firstConfiguration.descriptorBytes.length))] := by
  unfold getDescriptorEffects
  rw [if_neg (by rw [h]; decide), if_pos h, ite_lt_eq_min]

lemma getDescriptorEffects_hid (cfg : DeviceConfig) (sp : SetupPacket)
    (h : sp.Value = HidReportDescriptorParam) :
    getDescriptorEffects cfg sp =
      [Effect.sendData (cfg.firstConfiguration.hidReportData.take
        (min sp.Length cfg.firstConfiguration.hidReportData.length))] := by
  unfold getDescriptorEffects
  rw [if_neg (by rw [h]; decide), if_neg (by rw [h]; decide), if_pos h, ite_lt_eq_min]

lemma getDescriptorEffects_default (cfg : DeviceConfig) (sp : SetupPacket)
    (h1 : sp.Value ≠ DeviceDescriptorParam) (h2 : sp.Value ≠ ConfigurationDescriptorParam)
    (h3 : sp.Value ≠ HidReportDescriptorParam) :
    getDescriptorEffects cfg sp = [Effect.setTxStatus .stall] := by
  unfold getDescriptorEffects
  rw [if_neg h1, if_neg h2, if_neg h3]

/-- Interval invariant for the pending address: starting from a state with
`TempAddressStorage = 0`, the pending register can be non-zero after a trace
of endpoint-0 events only when the trace ends inside a SetAddress window: a
`SetAddress` SETUP with a value that is non-zero mod 256 occurred, and no
status-stage transmit-complete (and no further SetAddress) has been handled
since. -/
lemma temp_nonzero_interval (cfg : DeviceConfig) (s0 : UsbState) (evs : List Ep0Event)
    (h0 : s0.TempAddressStorage = 0)
    (hne : (runEvents cfg s0 evs).TempAddressStorage ≠ 0) :
    ∃ l1 sp l2, evs = l1 ++ Ep0Event.recvSetup sp :: l2 ∧
      sp.Request = SetAddressCode ∧ sp.Value % 256 ≠ 0 ∧
      Ep0Event.txComplete ∉ l2 ∧
      (∀ sp2, Ep0Event.recvSetup sp2 ∈ l2 → sp2.Request ≠ SetAddressCode) := by
  revert hne
  induction evs using List.reverseRecOn with
  | nil =>
      intro hne
      exact absurd h0 (by simpa [runEvents] using hne)
  | append_singleton l e ih =>
      intro hne
      rw [runEvents_append_one] at hne
      cases e with
      | txComplete =>
          rw [step_tx_temp] at hne
          exact absurd rfl hne
      | recvData =>
          rw [step_recvData_temp] at hne
          obtain ⟨l1, sp, l2, heq, hreq, hval, htx, hsa⟩ := ih hne
          refine ⟨l1, sp, l2 ++ [Ep0Event.recvData], ?_, hreq, hval, ?_, ?_⟩
          · rw [heq, List.append_assoc]
            rfl
          · intro hm
            rcases List.mem_append.mp hm with hm | hm
            · exact htx hm
            · simp at hm
          · intro sp2 hm
            rcases List.mem_append.mp hm with hm | hm
            · exact hsa sp2 hm
            · simp at hm
      | recvSetup sp =>
          rw [step_recvSetup_temp] at hne
          by_cases hreq : sp.Request = SetAddressCode
          · rw [if_pos hreq] at hne
            exact ⟨l, sp, [], by simp, hreq, hne, by simp, by simp⟩
          · rw [if_neg hreq] at hne
            obtain ⟨l1, sp1, l2, heq, hreq1, hval, htx, hsa⟩ := ih hne
            refine ⟨l1, sp1, l2 ++ [Ep0Event.recvSetup sp], ?_, hreq1, hval, ?_, ?_⟩
            · rw [heq, List.append_assoc]
              rfl
            · intro hm
              rcases List.mem_append.mp hm with hm | hm
              · exact htx hm
              · simp at hm
            · intro sp2 hm
              rcases List.mem_append.mp hm with hm | hm
              · exact hsa sp2 hm
              · have : sp2 = sp := by simpa using hm
                rw [this]
                exact hreq

/-- C1 (amended): for a SetAddress request with address 1..127, DADDR is
unchanged by the SETUP dispatch (indeed by any SETUP dispatch), the address
is only latched in `TempAddressStorage`, the DADDR register becomes
`USB_DADDR_EF + addr` exactly at the following status-stage
transmit-complete, and the pending register is cleared there; moreover,
starting from a cleared pending register, `TempAddressStorage` is non-zero
only strictly inside the window between a SetAddress dispatch (with value
non-zero mod 256) and the next transmit-complete. -/
theorem spec_c1_setaddress_deferred_commit :
    (∀ cfg s sp, (step cfg s (Ep0Event.recvSetup sp)).daddr = s.daddr)
    ∧ (∀ cfg s addr, 1 ≤ addr → addr ≤ 127 →
        (step cfg s (Ep0Event.recvSetup (setAddressPacket addr))).TempAddressStorage = addr
        ∧ (step cfg (step cfg s (Ep0Event.recvSetup (setAddressPacket addr)))
            Ep0Event.txComplete).daddr = USB_DADDR_EF + addr
        ∧ (step cfg (step cfg s (Ep0Event.recvSetup (setAddressPacket addr)))
            Ep0Event.txComplete).TempAddressStorage = 0)
    ∧ (∀ cfg s, (step cfg s Ep0Event.txComplete).TempAddressStorage = 0)
    ∧ (∀ cfg s0 evs, s0.TempAddressStorage = 0 →
        (runEvents cfg s0 evs).TempAddressStorage ≠ 0 →
        ∃ l1 sp l2, evs = l1 ++ Ep0Event.recvSetup sp :: l2 ∧
          sp.Request = SetAddressCode ∧ sp.Value % 256 ≠ 0 ∧
          Ep0Event.txComplete ∉ l2 ∧
          (∀ sp2, Ep0Event.recvSetup sp2 ∈ l2 → sp2.Request ≠ SetAddressCode)) := by
  refine ⟨fun cfg s sp => step_recvSetup_daddr cfg s sp, ?_, ?_, ?_⟩
  · intro cfg s addr h1 h127
    have hmod : addr % 256 = addr := Nat.mod_eq_of_lt (by omega)
    have htemp : (step cfg s (Ep0Event.recvSetup (setAddressPacket addr))).TempAddressStorage
        = addr := by
      rw [step_recvSetup_temp]
      simp [setAddressPacket, hmod]
    have hne : (step cfg s (Ep0Event.recvSetup (setAddressPacket addr))).TempAddressStorage
        ≠ 0 := by
      rw [htemp]; omega
    refine ⟨htemp, ?_, step_tx_temp _ _⟩
    rw [step_tx_daddr_commit _ _ hne, htemp]
    have := (daddr_commit_small addr (by omega)).1
    simpa [USB_DADDR_EF, USB_DADDR_ADD] using this
  · intro cfg s
    exact step_tx_temp cfg s
  · intro cfg s0 evs h0 hne
    exact temp_nonzero_interval cfg s0 evs h0 hne

/-- C1 witness: the spec scenario `SetAddress(5)` then the status-stage IN
completion, run from the post-reset state. -/
theorem spec_c1_witness :
    (step exampleConfig initialState
      (Ep0Event.recvSetup (setAddressPacket 5))).TempAddressStorage = 5
    ∧ (step exampleConfig (step exampleConfig initialState
        (Ep0Event.recvSetup (setAddressPacket 5))) Ep0Event.txComplete).daddr
        = USB_DADDR_EF + 5
    ∧ (step exampleConfig (step exampleConfig initialState
        (Ep0Event.recvSetup (setAddressPacket 5))) Ep0Event.txComplete).TempAddressStorage = 0 :=
  spec_c1_setaddress_deferred_commit.2.1 exampleConfig initialState 5 (by decide) (by decide)

/-- C1 counterexample to the claim as stated: for `SetAddress(128)` the
committed DADDR address field is `128 & 0x7F = 0`, not the requested 128 —
the device-address register does not become `addr` at the status-stage
completion. -/
theorem spec_c1_counterexample :
    ((runEvents exampleConfig initialState
        [Ep0Event.recvSetup (setAddressPacket 128), Ep0Event.txComplete]).daddr
      &&& USB_DADDR_ADD) = 0
    ∧ (128 : Nat) ≠ 0 := by
  decide

/-- C8 (confirmed): the pending-address store truncates the 16-bit wValue to
8 bits (`uint8_t TempAddressStorage = setup->Value`), the status-stage commit
masks it to the 7-bit DADDR address field
(`USB_DADDR_EF | (TempAddressStorage & USB_DADDR_ADD)`), and for every
requested address in 1..127 the committed address field equals the request
exactly. -/
theorem spec_c8_address_truncation_and_mask :
    (∀ cfg s sp, sp.Request = SetAddressCode →
        (step cfg s (Ep0Event.recvSetup sp)).TempAddressStorage = sp.Value % 256)
    ∧ (∀ cfg s, s.TempAddressStorage ≠ 0 →
        (step cfg s Ep0Event.txComplete).daddr =
          USB_DADDR_EF ||| (s.TempAddressStorage &&& USB_DADDR_ADD))
    ∧ (∀ cfg s addr, 1 ≤ addr → addr ≤ 127 →
        ((step cfg (step cfg s (Ep0Event.recvSetup (setAddressPacket addr)))
            Ep0Event.txComplete).daddr &&& USB_DADDR_ADD) = addr) := by
  refine ⟨?_, ?_, ?_⟩
  · intro cfg s sp h
    rw [step_recvSetup_temp, if_pos h]
  · intro cfg s h
    exact step_tx_daddr_commit cfg s h
  · intro cfg s addr h1 h127
    have hmod : addr % 256 = addr := Nat.mod_eq_of_lt (by omega)
    have htemp : (step cfg s (Ep0Event.recvSetup (setAddressPacket addr))).TempAddressStorage
        = addr := by
      rw [step_recvSetup_temp]
      simp [setAddressPacket, hmod]
    have hne : (step cfg s (Ep0Event.recvSetup (setAddressPacket addr))).TempAddressStorage
        ≠ 0 := by
      rw [htemp]; omega
    rw [step_tx_daddr_commit _ _ hne, htemp]
    have := (daddr_commit_small addr (by omega)).2
    simpa [USB_DADDR_EF, USB_DADDR_ADD] using this

/-- C8 witness: requested address 127 is committed exactly. -/
theorem spec_c8_witness :
    ((step exampleConfig (step exampleConfig initialState
        (Ep0Event.recvSetup (setAddressPacket 127)))
        Ep0Event.txComplete).daddr &&& USB_DADDR_ADD) = 127 :=
  spec_c8_address_truncation_and_mask.2.2 exampleConfig initialState 127 (by decide) (by decide)

/-- C9 (confirmed): a SetAddress whose value is zero mod 256 is acknowledged
with a zero-length response but leaves the pending register at 0, and a
transmit-complete handled with a zero pending register performs no DADDR
write: the register keeps its previous value. -/
theorem spec_c9_setaddress_zero_never_committed :
    (∀ cfg s sp, sp.Request = SetAddressCode → sp.Value % 256 = 0 →
        (step cfg s (Ep0Event.recvSetup sp)).TempAddressStorage = 0
        ∧ Effect.sendData [] ∈ (stepE cfg s (Ep0Event.recvSetup sp)).2)
    ∧ (∀ cfg s, s.TempAddressStorage = 0 →
        (step cfg s Ep0Event.txComplete).daddr = s.daddr
        ∧ ∀ v, Effect.writeDaddr v ∉ (stepE cfg s Ep0Event.txComplete).2) := by
  constructor
  · intro cfg s sp h hz
    constructor
    · rw [step_recvSetup_temp, if_pos h, hz]
    · rw [stepE_recvSetup]
      rw [show (run { s with epCtrRx := true, epSetup := true, epCtrTx := false, rxSetup := sp }
          (Effect.clearCtrRx :: (setupRequestEffects cfg sp ++ [Effect.setRxStatus .valid])),
         Effect.clearCtrRx :: (setupRequestEffects cfg sp ++ [Effect.setRxStatus .valid])).2
         = Effect.clearCtrRx :: (setupRequestEffects cfg sp ++ [Effect.setRxStatus .valid])
         from rfl]
      rw [setupRequestEffects_setAddress cfg sp h]
      simp
  · intro cfg s h
    constructor
    · exact step_tx_daddr_zero cfg s h
    · intro v
      rw [stepE_txComplete]
      rw [show (run { s with epCtrRx := false, epCtrTx := true }
          (HandlerTxEffects { s with epCtrRx := false, epCtrTx := true }),
         HandlerTxEffects { s with epCtrRx := false, epCtrTx := true }).2
         = HandlerTxEffects { s with epCtrRx := false, epCtrTx := true } from rfl]
      simp [HandlerTxEffects, h]

/-- C9 witness: SetAddress(0) then the status-stage completion from the
post-reset state. -/
theorem spec_c9_witness :
    (step exampleConfig initialState
      (Ep0Event.recvSetup (setAddressPacket 0))).TempAddressStorage = 0
    ∧ Effect.sendData [] ∈ (stepE exampleConfig initialState
        (Ep0Event.recvSetup (setAddressPacket 0))).2 :=
  spec_c9_setaddress_zero_never_committed.1 exampleConfig initialState
    (setAddressPacket 0) (by decide) (by decide)

/-- C2 (confirmed): a GetDescriptor(Device) request with requested length L
stages a response of exactly the first `min(L, 18)` bytes of the 18-byte
packed device descriptor; VendorId/ProductId appear little-endian at offsets
8..11, the three string indexes (offsets 14..16) are zero, and offset 17 is
the number of declared configurations. -/
theorem spec_c2_get_device_descriptor :
    ∀ cfg s sp, sp.Request = GetDescriptorCode → sp.Value = DeviceDescriptorParam →
      cfg.vendorId < 65536 → cfg.productId < 65536 →
      1 + cfg.otherConfigurations.length < 256 →
      ((stepE cfg s (Ep0Event.recvSetup sp)).2 =
        [Effect.clearCtrRx,
         Effect.sendData ((bytesOfDeviceDescriptor (FillDescriptor cfg)).take (min sp.Length 18)),
         Effect.setRxStatus EndpointStatus.valid])
      ∧ ((bytesOfDeviceDescriptor (FillDescriptor cfg)).take (min sp.Length 18)).length
          = min sp.Length 18
      ∧ (bytesOfDeviceDescriptor (FillDescriptor cfg)).length = 18
      ∧ (bytesOfDeviceDescriptor (FillDescriptor cfg))[8]? = some (cfg.vendorId % 256)
      ∧ (bytesOfDeviceDescriptor (FillDescriptor cfg))[9]? = some (cfg.vendorId / 256)
      ∧ (bytesOfDeviceDescriptor (FillDescriptor cfg))[10]? = some (cfg.productId % 256)
      ∧ (bytesOfDeviceDescriptor (FillDescriptor cfg))[11]? = some (cfg.productId / 256)
      ∧ (bytesOfDeviceDescriptor (FillDescriptor cfg))[14]? = some 0
      ∧ (bytesOfDeviceDescriptor (FillDescriptor cfg))[15]? = some 0
      ∧ (bytesOfDeviceDescriptor (FillDescriptor cfg))[16]? = some 0
      ∧ (bytesOfDeviceDescriptor (FillDescriptor cfg))[17]?
          = some (1 + cfg.otherConfigurations.length) := by
  intro cfg s sp hreq hval hv hp hc
  have hlen : (bytesOfDeviceDescriptor (FillDescriptor cfg)).length = 18 := rfl
  refine ⟨?_, ?_, hlen, rfl, ?_, rfl, ?_, rfl, rfl, rfl, ?_⟩
  · rw [stepE_recvSetup]
    rw [show (run { s with epCtrRx := true, epSetup := true, epCtrTx := false, rxSetup := sp }
        (Effect.clearCtrRx :: (setupRequestEffects cfg sp ++ [Effect.setRxStatus .valid])),
       Effect.clearCtrRx :: (setupRequestEffects cfg sp ++ [Effect.setRxStatus .valid])).2
       = Effect.clearCtrRx :: (setupRequestEffects cfg sp ++ [Effect.setRxStatus .valid])
       from rfl]
    rw [setupRequestEffects_getDescriptor cfg sp hreq, getDescriptorEffects_device cfg sp hval]
    rfl
  · rw [List.length_take, hlen]
    omega
  · have h9 : (bytesOfDeviceDescriptor (FillDescriptor cfg))[9]?
        = some (cfg.vendorId / 256 % 256) := rfl
    rw [h9]
    congr 1
    omega
  · have h11 : (bytesOfDeviceDescriptor (FillDescriptor cfg))[11]?
        = some (cfg.productId / 256 % 256) := rfl
    rw [h11]
    congr 1
    omega
  · have h17 : (bytesOfDeviceDescriptor (FillDescriptor cfg))[17]?
        = some ((1 + cfg.otherConfigurations.length) % 256) := rfl
    rw [h17]
    congr 1
    omega

/-- C2 witness: the spec scenario: VendorId 0x1234, ProductId 0x5678, one
configuration, requested length 64: 18 bytes are staged and offsets 8..11
read 0x34 0x12 0x78 0x56. -/
theorem spec_c2_witness :
    ((stepE exampleConfig initialState (Ep0Event.recvSetup
        { RequestType := 0x80, Request := 6, Value := 0x100, Index := 0, Length := 64 })).2 =
      [Effect.clearCtrRx,
       Effect.sendData ((bytesOfDeviceDescriptor (FillDescriptor exampleConfig)).take (min 64 18)),
       Effect.setRxStatus EndpointStatus.valid])
    ∧ (bytesOfDeviceDescriptor (FillDescriptor exampleConfig))[8]? = some 0x34
    ∧ (bytesOfDeviceDescriptor (FillDescriptor exampleConfig))[9]? = some 0x12
    ∧ (bytesOfDeviceDescriptor (FillDescriptor exampleConfig))[10]? = some 0x78
    ∧ (bytesOfDeviceDescriptor (FillDescriptor exampleConfig))[11]? = some 0x56 := by
  have h := spec_c2_get_device_descriptor exampleConfig initialState
    { RequestType := 0x80, Request := 6, Value := 0x100, Index := 0, Length := 64 }
    (by decide) (by decide) (by decide) (by decide) (by decide)
  exact ⟨h.1, by decide, by decide, by decide, by decide⟩

/-- C4 (confirmed): a GetDescriptor request whose wValue is none of the three
supported descriptor parameters stalls the transmit endpoint and the receive
direction is still re-armed to Valid afterwards, in that order. -/
theorem spec_c4_unsupported_descriptor_stalls :
    ∀ cfg s sp, sp.Request = GetDescriptorCode →
      sp.Value ≠ DeviceDescriptorParam → sp.Value ≠ ConfigurationDescriptorParam →
      sp.Value ≠ HidReportDescriptorParam →
      (stepE cfg s (Ep0Event.recvSetup sp)).2 =
        [Effect.clearCtrRx, Effect.setTxStatus EndpointStatus.stall,
         Effect.setRxStatus EndpointStatus.valid] := by
  intro cfg s sp hreq h1 h2 h3
  rw [stepE_recvSetup]
  rw [show (run { s with epCtrRx := true, epSetup := true, epCtrTx := false, rxSetup := sp }
      (Effect.clearCtrRx :: (setupRequestEffects cfg sp ++ [Effect.setRxStatus .valid])),
     Effect.clearCtrRx :: (setupRequestEffects cfg sp ++ [Effect.setRxStatus .valid])).2
     = Effect.clearCtrRx :: (setupRequestEffects cfg sp ++ [Effect.setRxStatus .valid])
     from rfl]
  rw [setupRequestEffects_getDescriptor cfg sp hreq,
      getDescriptorEffects_default cfg sp h1 h2 h3]
  rfl

/-- C4 witness: a string-descriptor request (wValue 0x0300) stalls and then
re-arms the receive side. -/
theorem spec_c4_witness :
    (stepE exampleConfig initialState (Ep0Event.recvSetup
        { RequestType := 0x80, Request := 6, Value := 0x300, Index := 0, Length := 255 })).2 =
      [Effect.clearCtrRx, Effect.setTxStatus EndpointStatus.stall,
       Effect.setRxStatus EndpointStatus.valid] :=
  spec_c4_unsupported_descriptor_stalls exampleConfig initialState
    { RequestType := 0x80, Request := 6, Value := 0x300, Index := 0, Length := 255 }
    (by decide) (by decide) (by decide) (by decide)

/-- C5 (confirmed): `Handler` is the receive-complete block followed by the
transmit-complete block, and whenever either block runs (its CTR flag is
set), its effect list ends with re-arming the receive direction to Valid. -/
theorem spec_c5_rx_always_rearmed :
    ∀ cfg s,
      ((Handler cfg s).2 =
        HandlerRxEffects cfg s ++ HandlerTxEffects (run s (HandlerRxEffects cfg s)))
      ∧ (s.epCtrRx = true →
          (HandlerRxEffects cfg s).getLast? = some (Effect.setRxStatus EndpointStatus.valid))
      ∧ (s.epCtrTx = true →
          (HandlerTxEffects s).getLast? = some (Effect.setRxStatus EndpointStatus.valid)) := by
  intro cfg s
  refine ⟨rfl, ?_, ?_⟩
  · intro h
    unfold HandlerRxEffects
    rw [if_pos h]
    exact List.getLast?_concat _
  · intro h
    unfold HandlerTxEffects
    rw [if_pos h]
    exact List.getLast?_concat _

/-- C5 witness: with both completion flags raised, both halves end by setting
the receive status to Valid. -/
theorem spec_c5_witness :
    (HandlerRxEffects exampleConfig
        { initialState with epCtrRx := true, epCtrTx := true }).getLast?
      = some (Effect.setRxStatus EndpointStatus.valid)
    ∧ (HandlerTxEffects
        { initialState with epCtrRx := true, epCtrTx := true }).getLast?
      = some (Effect.setRxStatus EndpointStatus.valid) :=
  ⟨(spec_c5_rx_always_rearmed exampleConfig
      { initialState with epCtrRx := true, epCtrTx := true }).2.1 rfl,
   (spec_c5_rx_always_rearmed exampleConfig
      { initialState with epCtrRx := true, epCtrTx := true }).2.2 rfl⟩

/-- C3 (code bug): evaluating `Handler` on a SetConfiguration SETUP shows the
`case StandartRequestCode::SetConfiguration` block stages the zero-length
acknowledgment and then, lacking a `break` (src lines 358-360), falls
through into `default` and also stalls the transmit endpoint — contradicting
the documented behavior (acknowledge without Stall, Stall only for requests
outside the four handled codes). -/
theorem spec_c3_setconfiguration_fallthrough_stalls :
    (stepE exampleConfig initialState (Ep0Event.recvSetup
        { RequestType := 0, Request := 9, Value := 1, Index := 0, Length := 0 })).2 =
      [Effect.clearCtrRx, Effect.sendData [], Effect.setTxStatus EndpointStatus.stall,
       Effect.setRxStatus EndpointStatus.valid] := by
  decide

lemma run_map_resetConfig (s : UsbState) (l : List Nat) :
    run s (l.map Effect.resetConfig) = s := by
  induction l generalizing s with
  | nil => rfl
  | cons a t ih => exact ih s

lemma istrCtr_after_Reset (cfg : DeviceConfig) (s : UsbState) :
    (run s (Reset cfg)).istrCtr = false := by
  unfold Reset
  rw [run_append, run_append, run_map_resetConfig]
  simp [run, applyEffect, USB_ISTR_RESET, USB_ISTR_CTR]

/-- C6 (confirmed): within one `CommonHandler` invocation the bus-reset check
runs first — when the reset flag is up, `Reset()` zeroes ISTR, so the
subsequent transfer-complete check (which re-reads ISTR) dispatches nothing
and the whole invocation is the reset effects followed by the interrupt
acknowledgment; and within `Handler` the receive-complete block runs before
the transmit-complete block, no receive-side effect writes DADDR, and no
transmit-side effect stages response data, so every SETUP-parsing/response
effect precedes any deferred device-address commit. -/
theorem spec_c6_ordering :
    ∀ cfg s,
      (s.istrReset = true →
        (CommonHandler cfg s).2 = Reset cfg ++ [Effect.clearPendingIrq])
      ∧ ((Handler cfg s).2 =
          HandlerRxEffects cfg s ++ HandlerTxEffects (run s (HandlerRxEffects cfg s)))
      ∧ (∀ v, Effect.writeDaddr v ∉ HandlerRxEffects cfg s)
      ∧ (∀ s2 b, Effect.sendData b ∉ HandlerTxEffects s2) := by
  intro cfg s
  refine ⟨?_, rfl, writeDaddr_not_mem_HandlerRxEffects cfg s, ?_⟩
  · intro h
    have hctr := istrCtr_after_Reset cfg s
    simp [CommonHandler, h, hctr]
  · intro s2 b
    exact sendData_not_mem_HandlerTxEffects s2 b

/-- C6 witness: an invocation with the reset flag raised. -/
theorem spec_c6_witness :
    (CommonHandler exampleConfig { initialState with istrReset := true }).2 =
      Reset exampleConfig ++ [Effect.clearPendingIrq] :=
  (spec_c6_ordering exampleConfig { initialState with istrReset := true }).1 rfl

/-- C7 (confirmed): `Reset()` issues the reset call to endpoint 0 and to every
declared configuration strictly before re-activating the device with
`DADDR = USB_DADDR_EF` (enable flag only, address field 0, as the final
effect after zeroing BTABLE), and the CNTR/ISTR registers are set to the
baseline mask (transfer-complete and reset interrupts enabled, status
zeroed) in that same prefix. -/
theorem spec_c7_reset_broadcast_before_reactivation :
    ∀ cfg, ∃ pre,
      Reset cfg = pre ++ [Effect.writeBtable 0, Effect.writeDaddr USB_DADDR_EF]
      ∧ Effect.resetEp0 ∈ pre
      ∧ (∀ i, i < 1 + cfg.otherConfigurations.length → Effect.resetConfig i ∈ pre)
      ∧ Effect.writeCntr (USB_CNTR_CTRM ||| USB_CNTR_RESETM) ∈ pre
      ∧ Effect.writeIstr 0 ∈ pre
      ∧ USB_DADDR_EF &&& USB_DADDR_ADD = 0 := by
  intro cfg
  refine ⟨[Effect.writeCntr (USB_CNTR_CTRM ||| USB_CNTR_RESETM), Effect.writeIstr 0,
      Effect.resetEp0]
      ++ (List.range (1 + cfg.otherConfigurations.length)).map Effect.resetConfig,
    ?_, ?_, ?_, ?_, ?_, ?_⟩
  · unfold Reset
    exact (List.append_assoc _ _ _)
  · simp
  · intro i hi
    exact List.mem_append.mpr (Or.inr (List.mem_map.mpr ⟨i, List.mem_range.mpr hi, rfl⟩))
  · simp
  · simp
  · decide

/-- C7 witness: the single-configuration example device. -/
theorem spec_c7_witness :
    ∃ pre, Reset exampleConfig = pre ++ [Effect.writeBtable 0, Effect.writeDaddr USB_DADDR_EF]
      ∧ Effect.resetEp0 ∈ pre ∧ Effect.resetConfig 0 ∈ pre := by
  obtain ⟨pre, h1, h2, h3, h4, h5, h6⟩ :=
    spec_c7_reset_broadcast_before_reactivation exampleConfig
  exact ⟨pre, h1, h2, h3 0 (by decide)⟩

/-- C10 (amended): a GetDescriptor whose full 16-bit wValue is exactly 0x0200
(Configuration, descriptor index 0) or 0x2200 (HID report, index 0) is
answered from the first declared configuration — index 0 of the static list,
whatever other configurations exist — and the composition scratch buffer is
the fixed 64-byte `temp` array; a wValue whose type byte is Configuration
but whose index byte is non-zero matches no case and stalls instead. -/
theorem spec_c10_first_configuration_only :
    ∀ cfg s sp, sp.Request = GetDescriptorCode →
      (sp.Value = ConfigurationDescriptorParam →
        (stepE cfg s (Ep0Event.recvSetup sp)).2 =
          [Effect.clearCtrRx,
           Effect.sendData (cfg.firstConfiguration.descriptorBytes.take
             (min sp.Length cfg.firstConfiguration.descriptorBytes.length)),
           Effect.setRxStatus EndpointStatus.valid])
      ∧ (sp.Value = HidReportDescriptorParam →
        (stepE cfg s (Ep0Event.recvSetup sp)).2 =
          [Effect.clearCtrRx,
           Effect.sendData (cfg.firstConfiguration.hidReportData.take
             (min sp.Length cfg.firstConfiguration.hidReportData.length)),
           Effect.setRxStatus EndpointStatus.valid])
      ∧ (sp.Value / 256 = 2 → sp.Value % 256 ≠ 0 →
        (stepE cfg s (Ep0Event.recvSetup sp)).2 =
          [Effect.clearCtrRx, Effect.setTxStatus EndpointStatus.stall,
           Effect.setRxStatus EndpointStatus.valid])
      ∧ configDescriptorScratchSize = 64 := by
  intro cfg s sp hreq
  refine ⟨?_, ?_, ?_, rfl⟩
  · intro hval
    rw [stepE_recvSetup]
    rw [show (run { s with epCtrRx := true, epSetup := true, epCtrTx := false, rxSetup := sp }
        (Effect.clearCtrRx :: (setupRequestEffects cfg sp ++ [Effect.setRxStatus .valid])),
       Effect.clearCtrRx :: (setupRequestEffects cfg sp ++ [Effect.setRxStatus .valid])).2
       = Effect.clearCtrRx :: (setupRequestEffects cfg sp ++ [Effect.setRxStatus .valid])
       from rfl]
    rw [setupRequestEffects_getDescriptor cfg sp hreq, getDescriptorEffects_config cfg sp hval]
    rfl
  · intro hval
    rw [stepE_recvSetup]
    rw [show (run { s with epCtrRx := true, epSetup := true, epCtrTx := false, rxSetup := sp }
        (Effect.clearCtrRx :: (setupRequestEffects cfg sp ++ [Effect.setRxStatus .valid])),
       Effect.clearCtrRx :: (setupRequestEffects cfg sp ++ [Effect.setRxStatus .valid])).2
       = Effect.clearCtrRx :: (setupRequestEffects cfg sp ++ [Effect.setRxStatus .valid])
       from rfl]
    rw [setupRequestEffects_getDescriptor cfg sp hreq, getDescriptorEffects_hid cfg sp hval]
    rfl
  · intro htype hidx
    have h1 : sp.Value ≠ DeviceDescriptorParam := by
      unfold DeviceDescriptorParam
      omega
    have h2 : sp.Value ≠ ConfigurationDescriptorParam := by
      unfold ConfigurationDescriptorParam
      omega
    have h3 : sp.Value ≠ HidReportDescriptorParam := by
      unfold HidReportDescriptorParam
      omega
    exact spec_c4_unsupported_descriptor_stalls cfg s sp hreq h1 h2 h3

/-- C10 counterexample to the claim as stated: the request
GetDescriptor(Configuration, index 1) — wValue 0x0201 — is not answered from
the first configuration (or any configuration): the handler stalls. -/
theorem spec_c10_counterexample :
    (stepE exampleConfig initialState (Ep0Event.recvSetup
        { RequestType := 0x80, Request := 6, Value := 0x0201, Index := 0, Length := 9 })).2 =
      [Effect.clearCtrRx, Effect.setTxStatus EndpointStatus.stall,
       Effect.setRxStatus EndpointStatus.valid] := by
  decide

/-- C10 witness: a second declared configuration is never consulted: the
configuration-descriptor request is served from configuration index 0. -/
theorem spec_c10_witness :
    (stepE { exampleConfig with
        otherConfigurations := [{ descriptorBytes := [7, 7, 7], hidReportData := [8] }] }
      initialState (Ep0Event.recvSetup
        { RequestType := 0x80, Request := 6, Value := 0x200, Index := 0, Length := 255 })).2 =
      [Effect.clearCtrRx,
       Effect.sendData (({ exampleConfig with
          otherConfigurations := [{ descriptorBytes := [7, 7, 7], hidReportData := [8] }]
        } : DeviceConfig).firstConfiguration.descriptorBytes.take
          (min 255 ({ exampleConfig with
            otherConfigurations := [{ descriptorBytes := [7, 7, 7], hidReportData := [8] }]
          } : DeviceConfig).firstConfiguration.descriptorBytes.length)),
       Effect.setRxStatus EndpointStatus.valid] :=
  (spec_c10_first_configuration_only
    { exampleConfig with
        otherConfigurations := [{ descriptorBytes := [7, 7, 7], hidReportData := [8] }] }
    initialState
    { RequestType := 0x80, Request := 6, Value := 0x200, Index := 0, Length := 255 }
    (by decide)).1 (by decide)

end ZheleUsb
